import Mathlib

/-!
Verification of the contact-relay Azure Function
(`src/api/contact/index.js`; the same handler appears with extra logging in
`src/unnamed/part_000`).  The handler is embedded shallowly:

* JavaScript field values are modelled by `JSVal` (string / number / boolean /
  null); an absent field (`undefined`) is `Option.none`.
* The external collaborators — the identity token provider
  (`credential.getToken`), the mail API (`fetch` of the Graph `sendMail`
  endpoint), `URLSearchParams` decoding and `JSON.parse` — are parameters of
  the embedded functions.  The Graph endpoint URL (and hence
  `encodeURIComponent`) is not modelled: no claim refers to it.
* JavaScript string builtins used by the handler (`trim`, `replaceAll` with a
  one-character pattern, `toLowerCase`, `.length` as UTF-16 code units,
  truthiness) are modelled executably on `List Char`.
* The observable effects are collected in a `Trace`: how many token
  acquisitions were attempted and the list of mail-send calls, in order.
* A thrown JavaScript exception is an `Except.error` carrying the trace at
  the throw point; the top-level `try`/`catch` is `handler`, which maps any
  such error to the constant 500 response.
-/

/-- A JavaScript value as it can appear in a parsed request body.
`undefined` (an absent field) is represented by `Option.none` at use sites. -/
inductive JSVal where
  | str (s : String)
  | num (n : Int)
  | bool (b : Bool)
  | null
deriving DecidableEq

/-- JavaScript truthiness of a `JSVal`: a string is truthy iff non-empty, a
number iff non-zero, a boolean iff `true`, and `null` is falsy. -/
def JSVal.truthy : JSVal → Bool
  | .str s => !s.toList.isEmpty
  | .num n => n != 0
  | .bool b => b
  | .null => false

/-- Truthiness of a possibly-absent value (`undefined` is falsy). -/
def truthy : Option JSVal → Bool
  | some v => v.truthy
  | none => false

/-- JavaScript `v || ""` on a possibly-absent value: the value when truthy,
the empty string otherwise. -/
def orEmptyStr (v : Option JSVal) : JSVal :=
  match v with
  | some w => if w.truthy then w else .str ""
  | none => .str ""

/-- A character the JavaScript `trim` removes (the common whitespace set). -/
def isJsWhitespace (c : Char) : Bool :=
  c = ' ' || c = '\t' || c = '\n' || c = '\r' || c = '\x0b' || c = '\x0c' || c = '\u00A0'

/-- Model of JavaScript `String.prototype.trim`: drop whitespace from both
ends. -/
def jsTrim (s : String) : String :=
  String.mk (((s.toList.dropWhile isJsWhitespace).reverse.dropWhile isJsWhitespace).reverse)

/-- The handler's `(data.x || "").trim()`: `some` of the trimmed string when
the evaluation succeeds, `none` when it throws a `TypeError` (the value is
truthy but not a string, so it has no `trim` method). -/
def jsTrimOr (v : Option JSVal) : Option String :=
  match orEmptyStr v with
  | .str s => some (jsTrim s)
  | _ => none

/-- JavaScript `!s` on a string: true exactly on the empty string. -/
def strFalsy (s : String) : Bool :=
  s.toList.isEmpty

/-- Model of JavaScript `.length`: the number of UTF-16 code units. -/
def jsLength (s : String) : Nat :=
  (s.toList.map (fun c => if c.toNat < 65536 then 1 else 2)).sum

/-- Model of JavaScript `replaceAll` with a one-character pattern: every
occurrence of `pat` becomes `rep`, in a single pass. -/
def replChar (pat : Char) (rep : List Char) : List Char → List Char
  | [] => []
  | c :: cs => (if c = pat then rep else [c]) ++ replChar pat rep cs

/-- `esc` from `src/api/contact/index.js`: HTML-escape, replacing `&` first,
then `<`, then `>`, then the double quote. -/
def esc (s : String) : String :=
  String.mk (replChar '"' "&quot;".toList
    (replChar '>' "&gt;".toList
      (replChar '<' "&lt;".toList
        (replChar '&' "&amp;".toList s.toList))))

/-- Does `p` occur as a contiguous subsequence of the second list? -/
def containsSeq (p : List Char) : List Char → Bool
  | [] => p.isEmpty
  | c :: cs => (p.isPrefixOf (c :: cs)) || containsSeq p cs

/-- Model of JavaScript `String.prototype.includes`: substring test. -/
def substrOf (pat s : String) : Bool :=
  containsSeq pat.toList s.toList

/-- Model of JavaScript `toLowerCase` (ASCII range, as used on the
content-type header). -/
def jsToLower (s : String) : String :=
  String.mk (s.toList.map Char.toLower)

/-- JavaScript `v || d` on an optional string: `d` when the string is absent
or empty (falsy), the string itself otherwise. -/
def jsOr (v : Option String) (d : String) : String :=
  match v with
  | some s => if s.isEmpty then d else s
  | none => d

/-- The raw optional string, defaulting when absent (no emptiness test). -/
def getOr (v : Option String) (d : String) : String :=
  match v with
  | some s => s
  | none => d

/-- An environment variable is falsy when unset or set to the empty string. -/
def envFalsy : Option String → Bool
  | none => true
  | some s => s.isEmpty

/-- The five request-body fields the handler reads.  Other keys of the parsed
body are never consulted and are not modelled. -/
structure Body where
  website : Option JSVal
  name : Option JSVal
  email : Option JSVal
  phone : Option JSVal
  message : Option JSVal
deriving DecidableEq

/-- The empty mapping (a body with no fields). -/
def Body.empty : Body := ⟨none, none, none, none, none⟩

/-- The request as the parser sees it: the `content-type` header, `req.body`,
and `req.rawBody`. -/
inductive ReqBody where
  | str (s : String)
  | obj (fields : Body)
  | null
  | undefined
deriving DecidableEq

/-- Is `req.body` a truthy object (`typeof req.body === "object" && req.body`)?
`null` has `typeof` object but is falsy. -/
def ReqBody.isObj : ReqBody → Bool
  | .obj _ => true
  | _ => false

structure Req where
  contentType : Option String
  body : ReqBody
  rawBody : Option String

/-- `parseBody` from `src/api/contact/index.js`.  `urlDecode` stands for
`URLSearchParams` + `Object.fromEntries` (a total platform builtin) and
`jsonParse` for `JSON.parse` restricted to the modelled fields, with `none`
when it throws. -/
def parseBody (urlDecode : String → Body) (jsonParse : String → Option Body)
    (req : Req) : Body :=
  if substrOf "application/x-www-form-urlencoded" (jsToLower (getOr req.contentType "")) then
    urlDecode (match req.body with | ReqBody.str s => s | _ => "")
  else
    match req.body with
    | ReqBody.obj b => b
    | _ =>
      match jsonParse (jsOr req.rawBody "\x7b\x7d") with
      | some b => b
      | none => Body.empty

/-- The four configuration variables read from the process environment. -/
structure Env where
  tenantId : Option String
  clientId : Option String
  clientSecret : Option String
  mailboxAddress : Option String

/-- One entry of `toRecipients` / `replyTo`. -/
structure EmailAddress where
  address : String
  name : Option String
deriving DecidableEq

structure MailBody where
  contentType : String
  content : String
deriving DecidableEq

structure MailMessage where
  subject : String
  body : MailBody
  toRecipients : List EmailAddress
  replyTo : List EmailAddress
deriving DecidableEq

/-- The `mail` object posted to the Graph `sendMail` endpoint. -/
structure MailRequest where
  message : MailMessage
  saveToSentItems : Bool
deriving DecidableEq

/-- One outbound mail-send call: the bearer token put in the Authorization
header and the JSON payload. -/
structure SendCall where
  bearerToken : String
  mail : MailRequest
deriving DecidableEq

/-- The HTTP response the handler sets: `status` plus the JSON body
`\x7b ok, message \x7d`. -/
structure Response where
  status : Nat
  ok : Bool
  message : String
deriving DecidableEq

/-- The observable effects of one invocation. -/
structure Trace where
  tokenAttempts : Nat
  sendCalls : List SendCall
deriving DecidableEq

/-- The `html` template literal of the handler, with each interpolated
user-supplied string passed through `esc`. -/
def buildHtml (name email phone message : String) : String :=
  "\n      <div style=\"font-family:Segoe UI,Arial,sans-serif;font-size:14px;\">\n        <h2 style=\"margin:0 0 8px;\">New Contact — Schneider Drafting Services</h2>\n        <p><strong>Name:</strong> "
    ++ esc name
    ++ "</p>\n        <p><strong>Email:</strong> "
    ++ esc email
    ++ "</p>\n        "
    ++ (if phone.isEmpty then "" else "<p><strong>Phone:</strong> " ++ esc phone ++ "</p>")
    ++ "\n        <hr style=\"border:none;border-top:1px solid #ddd;margin:12px 0;\" />\n        <p style=\"white-space:pre-wrap;\">"
    ++ esc message
    ++ "</p>\n      </div>\n    "

/-- The `mail` object built by the handler for a validated submission. -/
def buildMail (toAddress name email phone message : String) : MailRequest :=
  { message :=
      { subject := "SDS Contact: " ++ name ++ " <" ++ email ++ ">"
        body := { contentType := "HTML", content := buildHtml name email phone message }
        toRecipients := [{ address := toAddress, name := none }]
        replyTo := [{ address := email, name := some name }] }
    saveToSentItems := true }

/-- The send call the handler performs: bearer token `t` and the mail payload
addressed to `process.env.MAILBOX_ADDRESS || "jon@schneiderdrafting.com"`. -/
def mkCall (env : Env) (t name email phone message : String) : SendCall :=
  { bearerToken := t
    mail := buildMail (jsOr env.mailboxAddress "jon@schneiderdrafting.com")
              name email phone message }

/-- The body of the handler's `try` block, on an already-parsed body.
`tok` is the outcome of `credential.getToken` (`.error` = it threw,
`.ok none` = it returned no usable token, `.ok (some t)` = token `t`);
`api` maps a send call to the mail API's HTTP status and response text.
`.ok (r, tr)` means the handler set response `r` having produced trace `tr`;
`.error tr` means an exception was thrown with trace `tr` accumulated. -/
def handlerCore (env : Env) (tok : Except String (Option String))
    (api : SendCall → Nat × String) (body : Body) :
    Except Trace (Response × Trace) :=
  if truthy body.website then
    .ok (⟨200, true, "Thanks!"⟩, ⟨0, []⟩)
  else
    match jsTrimOr body.name, jsTrimOr body.email, jsTrimOr body.phone, jsTrimOr body.message with
    | some name, some email, some phone, some message =>
      if strFalsy name || strFalsy email || strFalsy message then
        .ok (⟨400, false, "Please include name, email, and message."⟩, ⟨0, []⟩)
      else if 5000 < jsLength message then
        .ok (⟨400, false, "Message is too long."⟩, ⟨0, []⟩)
      else if envFalsy env.tenantId || envFalsy env.clientId
          || envFalsy env.clientSecret || envFalsy env.mailboxAddress then
        .ok (⟨500, false, "Mail service not configured."⟩, ⟨0, []⟩)
      else
        match tok with
        | .error _ => .error ⟨1, []⟩
        | .ok none => .error ⟨1, []⟩
        | .ok (some t) =>
          if 200 ≤ (api (mkCall env t name email phone message)).1
              ∧ (api (mkCall env t name email phone message)).1 < 300 then
            .ok (⟨200, true, "Thanks! Your message has been sent."⟩,
                 ⟨1, [mkCall env t name email phone message]⟩)
          else
            .error ⟨1, [mkCall env t name email phone message]⟩
    | _, _, _, _ => .error ⟨0, []⟩

/-- The message of the catch-all 500 response. -/
def failCatchMsg : String := "Send failed. Please email jon@schneiderdrafting.com."

/-- The whole handler: the `try` block wrapped by the top-level `catch`,
which turns any thrown exception into the constant 500 response. -/
def handler (env : Env) (tok : Except String (Option String))
    (api : SendCall → Nat × String) (body : Body) : Response × Trace :=
  match handlerCore env tok api body with
  | .ok rt => rt
  | .error tr => (⟨500, false, failCatchMsg⟩, tr)

-- Concrete fixtures used by the closed theorems and witnesses.

/-- An environment with all four configuration variables set. -/
def envAll : Env :=
  ⟨some "tenant-guid", some "client-guid", some "secret-value",
   some "info@schneiderdrafting.com"⟩

/-- A mail API double that accepts every send with HTTP 202. -/
def api202 : SendCall → Nat × String := fun _ => (202, "")

/-- A mail API double that rejects every send with HTTP 403. -/
def api403 : SendCall → Nat × String :=
  fun _ => (403, "Forbidden: CallerDoesNotHaveRequiredPermissions")

/-- A fully valid submission with the given message and no honeypot field. -/
def bodyWith (msg : String) : Body :=
  ⟨none, some (.str "Jane Doe"), some (.str "jane@example.com"),
   some (.str ""), some (.str msg)⟩

/-- A valid submission carrying the given honeypot-field value. -/
def bodyHoney (w : Option JSVal) : Body :=
  ⟨w, some (.str "Jane Doe"), some (.str "jane@example.com"),
   some (.str ""), some (.str "Hello")⟩

/-- A valid submission whose message is 5001 characters long. -/
def longMsg : String := String.mk (List.replicate 5001 'a')

/-- A valid submission whose message is exactly 5000 characters long. -/
def capMsg : String := String.mk (List.replicate 5000 'a')

-- General lemmas about the handler.

/-- The handler only ever sets one of its six literal responses. -/
lemma handler_resp_cases (env : Env) (tok : Except String (Option String))
    (api : SendCall → Nat × String) (body : Body) :
    (handler env tok api body).1 = ⟨200, true, "Thanks!"⟩
    ∨ (handler env tok api body).1 = ⟨400, false, "Please include name, email, and message."⟩
    ∨ (handler env tok api body).1 = ⟨400, false, "Message is too long."⟩
    ∨ (handler env tok api body).1 = ⟨500, false, "Mail service not configured."⟩
    ∨ (handler env tok api body).1 = ⟨200, true, "Thanks! Your message has been sent."⟩
    ∨ (handler env tok api body).1 = ⟨500, false, failCatchMsg⟩ := by
  rcases h : handlerCore env tok api body with tr | rt
  · unfold handler
    rw [h]
    simp
  · unfold handler
    rw [h]
    unfold handlerCore at h
    repeat' split at h
    all_goals (rw [← h]; simp [failCatchMsg])

/-- On a submission that passes the honeypot, required-field, length and
configuration checks, the `try` block attempts token acquisition and, given
a token, performs exactly the one send call `mkCall`, succeeding iff the
mail API answers 2xx. -/
lemma handlerCore_send (env : Env) (t : String) (api : SendCall → Nat × String)
    (body : Body) (n e p m : String)
    (hw : truthy body.website = false)
    (hn : jsTrimOr body.name = some n) (he : jsTrimOr body.email = some e)
    (hp : jsTrimOr body.phone = some p) (hm : jsTrimOr body.message = some m)
    (hn' : strFalsy n = false) (he' : strFalsy e = false) (hm' : strFalsy m = false)
    (hlen : ¬ 5000 < jsLength m)
    (henv : (envFalsy env.tenantId || envFalsy env.clientId
        || envFalsy env.clientSecret || envFalsy env.mailboxAddress) = false) :
    handlerCore env (.ok (some t)) api body =
      if 200 ≤ (api (mkCall env t n e p m)).1 ∧ (api (mkCall env t n e p m)).1 < 300 then
        .ok (⟨200, true, "Thanks! Your message has been sent."⟩, ⟨1, [mkCall env t n e p m]⟩)
      else
        .error ⟨1, [mkCall env t n e p m]⟩ := by
  unfold handlerCore
  rw [hw, hn, he, hp, hm]
  simp [hn', he', hm', hlen, henv]

/-- The handler's outcome on such a submission: 200 on a 2xx mail-API answer,
the catch-all 500 otherwise, with exactly one send call either way. -/
lemma handler_send (env : Env) (t : String) (api : SendCall → Nat × String)
    (body : Body) (n e p m : String)
    (hw : truthy body.website = false)
    (hn : jsTrimOr body.name = some n) (he : jsTrimOr body.email = some e)
    (hp : jsTrimOr body.phone = some p) (hm : jsTrimOr body.message = some m)
    (hn' : strFalsy n = false) (he' : strFalsy e = false) (hm' : strFalsy m = false)
    (hlen : ¬ 5000 < jsLength m)
    (henv : (envFalsy env.tenantId || envFalsy env.clientId
        || envFalsy env.clientSecret || envFalsy env.mailboxAddress) = false) :
    handler env (.ok (some t)) api body =
      if 200 ≤ (api (mkCall env t n e p m)).1 ∧ (api (mkCall env t n e p m)).1 < 300 then
        (⟨200, true, "Thanks! Your message has been sent."⟩, ⟨1, [mkCall env t n e p m]⟩)
      else
        (⟨500, false, failCatchMsg⟩, ⟨1, [mkCall env t n e p m]⟩) := by
  unfold handler
  rw [handlerCore_send env t api body n e p m hw hn he hp hm hn' he' hm' hlen henv]
  by_cases hc : 200 ≤ (api (mkCall env t n e p m)).1 ∧ (api (mkCall env t n e p m)).1 < 300
  · simp [hc]
  · simp [hc]

/-- `v || d` is just the stored value when the variable is not falsy. -/
lemma jsOr_of_not_falsy {v : Option String} {d : String} (h : envFalsy v = false) :
    jsOr v d = getOr v "" := by
  cases v with
  | none => simp [envFalsy] at h
  | some s => simp [envFalsy] at h; simp [jsOr, getOr, h]

-- Lemmas about the escape function.

/-- After replacing `c` itself, `c` no longer occurs (provided the
replacement does not contain it). -/
lemma not_mem_replChar_self {c : Char} {rep : List Char} (hrep : c ∉ rep) :
    ∀ l : List Char, c ∉ replChar c rep l := by
  intro l
  induction l with
  | nil => simp [replChar]
  | cons a l ih =>
    simp only [replChar]
    intro hmem
    rcases List.mem_append.mp hmem with h | h
    · split at h
      · exact hrep h
      · rename_i hne
        rw [List.mem_singleton] at h
        exact hne h.symm
    · exact ih h

/-- A replacement pass for another character neither introduces `c` (when the
replacement avoids it) nor keeps it if it was absent. -/
lemma not_mem_replChar {c pat : Char} {rep : List Char} (hrep : c ∉ rep) :
    ∀ l : List Char, c ∉ l → c ∉ replChar pat rep l := by
  intro l
  induction l with
  | nil => simp [replChar]
  | cons a l ih =>
    intro hl
    simp only [replChar]
    intro hmem
    rcases List.mem_append.mp hmem with h | h
    · split at h
      · exact hrep h
      · rw [List.mem_singleton] at h
        exact hl (h ▸ List.mem_cons_self a l)
    · exact ih (fun hx => hl (List.mem_cons_of_mem a hx)) h

lemma esc_toList (s : String) :
    (esc s).toList =
      replChar '"' "&quot;".toList
        (replChar '>' "&gt;".toList
          (replChar '<' "&lt;".toList
            (replChar '&' "&amp;".toList s.toList))) := rfl

/-- No raw `<` survives `esc`. -/
lemma lt_not_mem_esc (s : String) : '<' ∉ (esc s).toList := by
  rw [esc_toList]
  refine not_mem_replChar (by decide) _ (not_mem_replChar (by decide) _ ?_)
  exact not_mem_replChar_self (by decide) _

/-- No raw `>` survives `esc`. -/
lemma gt_not_mem_esc (s : String) : '>' ∉ (esc s).toList := by
  rw [esc_toList]
  refine not_mem_replChar (by decide) _ ?_
  exact not_mem_replChar_self (by decide) _

/-- No raw double quote survives `esc`. -/
lemma quot_not_mem_esc (s : String) : '"' ∉ (esc s).toList := by
  rw [esc_toList]
  exact not_mem_replChar_self (by decide) _

-- Lemmas for reasoning about the 5000/5001-character boundary inputs
-- without evaluating 5000-element lists.

lemma toList_mk (l : List Char) : (String.mk l).toList = l := rfl

lemma dropWhile_replicate_neg {p : Char → Bool} {a : Char} (h : p a = false) (n : Nat) :
    (List.replicate n a).dropWhile p = List.replicate n a := by
  cases n with
  | zero => rfl
  | succ n => simp [List.replicate_succ, List.dropWhile_cons, h]

lemma jsTrim_replicate (n : Nat) (a : Char) (h : isJsWhitespace a = false) :
    jsTrim (String.mk (List.replicate n a)) = String.mk (List.replicate n a) := by
  unfold jsTrim
  rw [toList_mk, dropWhile_replicate_neg h, List.reverse_replicate,
    dropWhile_replicate_neg h, List.reverse_replicate]

lemma jsLength_replicate (n : Nat) :
    jsLength (String.mk (List.replicate n 'a')) = n := by
  unfold jsLength
  rw [toList_mk, List.map_replicate, if_pos (by decide), List.sum_replicate,
    smul_eq_mul, mul_one]

lemma strFalsy_replicate_succ (n : Nat) (a : Char) :
    strFalsy (String.mk (List.replicate (n + 1) a)) = false := by
  simp [strFalsy, toList_mk, List.replicate_succ]

lemma jsTrimOr_str_replicate (n : Nat) :
    jsTrimOr (some (.str (String.mk (List.replicate (n + 1) 'a'))))
      = some (String.mk (List.replicate (n + 1) 'a')) := by
  have ht : (JSVal.str (String.mk (List.replicate (n + 1) 'a'))).truthy = true := by
    simp [JSVal.truthy, toList_mk, List.replicate_succ]
  unfold jsTrimOr orEmptyStr
  simp [ht]
  rw [jsTrim_replicate (n + 1) 'a' (by decide)]

/-- A non-honeypot submission with non-empty required fields whose trimmed
message exceeds 5000 UTF-16 units is rejected 400 before any network
activity. -/
lemma handler_too_long (env : Env) (tok : Except String (Option String))
    (api : SendCall → Nat × String) (body : Body) (n e p m : String)
    (hw : truthy body.website = false)
    (hn : jsTrimOr body.name = some n) (he : jsTrimOr body.email = some e)
    (hp : jsTrimOr body.phone = some p) (hm : jsTrimOr body.message = some m)
    (hn' : strFalsy n = false) (he' : strFalsy e = false) (hm' : strFalsy m = false)
    (hlen : 5000 < jsLength m) :
    handler env tok api body = (⟨400, false, "Message is too long."⟩, ⟨0, []⟩) := by
  unfold handler handlerCore
  rw [hw, hn, he, hp, hm]
  simp [hn', he', hm', hlen]

-- Claim theorems.

/-- C1: every request terminates with exactly one response whose body is
`\x7b ok, message \x7d` (structural in `Response`) and whose status is 200,
400 or 500; moreover whenever the `try` block throws — token failure, mail
rejection, or any other fault — the top-level catch produces the 500 /
`ok:false` response, so no fault escapes unhandled.  `ok` is `true` exactly
on the 200 responses. -/
theorem contact_C1 (env : Env) (tok : Except String (Option String))
    (api : SendCall → Nat × String) (body : Body) :
    ((handler env tok api body).1.status = 200 ∨ (handler env tok api body).1.status = 400
      ∨ (handler env tok api body).1.status = 500)
    ∧ ((handler env tok api body).1.ok = true ↔ (handler env tok api body).1.status = 200)
    ∧ (∀ tr : Trace, handlerCore env tok api body = Except.error tr →
        handler env tok api body = (⟨500, false, failCatchMsg⟩, tr)) := by
  refine ⟨?_, ?_, ?_⟩
  · rcases handler_resp_cases env tok api body with h | h | h | h | h | h <;> rw [h] <;> simp
  · rcases handler_resp_cases env tok api body with h | h | h | h | h | h <;> rw [h] <;> simp
  · intro tr htr
    unfold handler
    rw [htr]

/-- C1 witness: a request whose token acquisition throws is answered by the
catch-all 500 response. -/
theorem contact_C1_witness :
    handler envAll (.error "auth down") api202 (bodyWith "Hello")
      = (⟨500, false, failCatchMsg⟩, ⟨1, []⟩) :=
  (contact_C1 envAll (.error "auth down") api202 (bodyWith "Hello")).2.2 ⟨1, []⟩ rfl

/-- C2: whenever the parsed `website` field is a non-empty string, the
handler answers 200 / `ok:true` with the generic thanks body, attempts no
token acquisition and performs no mail call, regardless of the other
fields. -/
theorem contact_C2 (env : Env) (tok : Except String (Option String))
    (api : SendCall → Nat × String) (body : Body) (s : String)
    (hs : body.website = some (.str s)) (hne : s.toList ≠ []) :
    handler env tok api body = (⟨200, true, "Thanks!"⟩, ⟨0, []⟩) := by
  unfold handler handlerCore
  rw [hs]
  have hd : s.data ≠ [] := hne
  simp [truthy, JSVal.truthy, hd]

/-- C2 witness: a bot submission with `website = "bot"` and no other field. -/
theorem contact_C2_witness :
    handler envAll (.ok (some "tok")) api202 ⟨some (.str "bot"), none, none, none, none⟩
      = (⟨200, true, "Thanks!"⟩, ⟨0, []⟩) :=
  contact_C2 envAll (.ok (some "tok")) api202 _ "bot" rfl (by decide)

/-- C3: a non-honeypot submission in which name, email or message trims to
the empty string (in any combination) is answered 400 / `ok:false`, with no
token acquisition and no mail call. -/
theorem contact_C3 (env : Env) (tok : Except String (Option String))
    (api : SendCall → Nat × String) (body : Body) (n e p m : String)
    (hw : truthy body.website = false)
    (hn : jsTrimOr body.name = some n) (he : jsTrimOr body.email = some e)
    (hp : jsTrimOr body.phone = some p) (hm : jsTrimOr body.message = some m)
    (hmiss : strFalsy n = true ∨ strFalsy e = true ∨ strFalsy m = true) :
    handler env tok api body
      = (⟨400, false, "Please include name, email, and message."⟩, ⟨0, []⟩) := by
  unfold handler handlerCore
  rw [hw, hn, he, hp, hm]
  rcases hmiss with h | h | h <;> simp [h]

/-- C3 witness: a submission whose name is whitespace only. -/
theorem contact_C3_witness :
    handler envAll (.ok (some "tok")) api202
        ⟨none, some (.str "  "), some (.str "jane@example.com"), some (.str ""), some (.str "Hello")⟩
      = (⟨400, false, "Please include name, email, and message."⟩, ⟨0, []⟩) :=
  contact_C3 envAll (.ok (some "tok")) api202 _ "" "jane@example.com" "" "Hello"
    rfl rfl rfl rfl rfl (Or.inl rfl)

/-- C4: for any non-honeypot submission with non-empty name, email and
message, a trimmed message of 5001 UTF-16 units is rejected 400 with no
network call, while one of exactly 5000 units passes the guard, acquires a
token and performs exactly one send, answered 200 when the mail API accepts;
concretely so for 5001- and 5000-character messages of otherwise valid
submissions. -/
theorem contact_C4 :
    (∀ (env : Env) (tok : Except String (Option String)) (api : SendCall → Nat × String)
        (body : Body) (n e p m : String),
        truthy body.website = false →
        jsTrimOr body.name = some n → jsTrimOr body.email = some e →
        jsTrimOr body.phone = some p → jsTrimOr body.message = some m →
        strFalsy n = false → strFalsy e = false → strFalsy m = false →
        jsLength m = 5001 →
        handler env tok api body = (⟨400, false, "Message is too long."⟩, ⟨0, []⟩))
    ∧ (∀ (env : Env) (t : String) (api : SendCall → Nat × String) (body : Body)
        (n e p m : String),
        truthy body.website = false →
        jsTrimOr body.name = some n → jsTrimOr body.email = some e →
        jsTrimOr body.phone = some p → jsTrimOr body.message = some m →
        strFalsy n = false → strFalsy e = false → strFalsy m = false →
        jsLength m = 5000 →
        (envFalsy env.tenantId || envFalsy env.clientId
          || envFalsy env.clientSecret || envFalsy env.mailboxAddress) = false →
        200 ≤ (api (mkCall env t n e p m)).1 ∧ (api (mkCall env t n e p m)).1 < 300 →
        handler env (.ok (some t)) api body
          = (⟨200, true, "Thanks! Your message has been sent."⟩, ⟨1, [mkCall env t n e p m]⟩))
    ∧ handler envAll (.ok (some "tok")) api202 (bodyWith longMsg)
        = (⟨400, false, "Message is too long."⟩, ⟨0, []⟩)
    ∧ handler envAll (.ok (some "tok")) api202 (bodyWith capMsg)
        = (⟨200, true, "Thanks! Your message has been sent."⟩,
           ⟨1, [mkCall envAll "tok" "Jane Doe" "jane@example.com" "" capMsg]⟩) := by
  have h5001 : jsLength longMsg = 5001 := by
    unfold longMsg
    exact jsLength_replicate 5001
  have h5000 : jsLength capMsg = 5000 := by
    unfold capMsg
    exact jsLength_replicate 5000
  refine ⟨?_, ?_, ?_, ?_⟩
  · intro env tok api body n e p m hw hn he hp hm hn' he' hm' hlen
    exact handler_too_long env tok api body n e p m hw hn he hp hm hn' he' hm' (by omega)
  · intro env t api body n e p m hw hn he hp hm hn' he' hm' hlen henv hapi
    rw [handler_send env t api body n e p m hw hn he hp hm hn' he' hm' (by omega) henv,
      if_pos hapi]
  · exact handler_too_long envAll (.ok (some "tok")) api202 (bodyWith longMsg)
      "Jane Doe" "jane@example.com" "" longMsg rfl rfl rfl rfl (jsTrimOr_str_replicate 5000)
      rfl rfl (strFalsy_replicate_succ 5000 'a') (by omega)
  · have h := handler_send envAll "tok" api202 (bodyWith capMsg)
      "Jane Doe" "jane@example.com" "" capMsg rfl rfl rfl rfl (jsTrimOr_str_replicate 4999)
      rfl rfl (strFalsy_replicate_succ 4999 'a') (by omega) rfl
    rwa [if_pos (And.intro (by decide) (by decide))] at h

/-- C4 witness: the 5001-character message of an otherwise valid submission
is rejected 400 with an empty trace. -/
theorem contact_C4_witness :
    handler envAll (.ok (some "tok")) api202 (bodyWith longMsg)
      = (⟨400, false, "Message is too long."⟩, ⟨0, []⟩) :=
  contact_C4.1 envAll (.ok (some "tok")) api202 (bodyWith longMsg)
    "Jane Doe" "jane@example.com" "" longMsg rfl rfl rfl rfl (jsTrimOr_str_replicate 5000)
    rfl rfl (strFalsy_replicate_succ 5000 'a')
    (by unfold longMsg; exact jsLength_replicate 5001)

/-- C5 counterexample: with `TENANT_ID` unset, a honeypot request is still
answered 200, not 500 — the claim's "every request" is too strong, because
the configuration check runs only after the honeypot and validation
checks. -/
theorem contact_C5_counterexample :
    (handler ⟨none, some "client-guid", some "secret-value", some "info@schneiderdrafting.com"⟩
        (.ok (some "tok")) api202 ⟨some (.str "bot"), none, none, none, none⟩).1.status = 200 :=
  rfl

/-- C5 (amended): when any of the four configuration variables is unset (or
empty), every request that passes the honeypot, required-field and length
checks is answered 500 / `ok:false` with the fixed message "Mail service not
configured." — the same constant whichever credential is missing, so the
message does not identify it — and no token acquisition or mail call is
attempted. -/
theorem contact_C5 (env : Env) (tok : Except String (Option String))
    (api : SendCall → Nat × String) (body : Body) (n e p m : String)
    (hw : truthy body.website = false)
    (hn : jsTrimOr body.name = some n) (he : jsTrimOr body.email = some e)
    (hp : jsTrimOr body.phone = some p) (hm : jsTrimOr body.message = some m)
    (hn' : strFalsy n = false) (he' : strFalsy e = false) (hm' : strFalsy m = false)
    (hlen : ¬ 5000 < jsLength m)
    (henv : envFalsy env.tenantId = true ∨ envFalsy env.clientId = true
      ∨ envFalsy env.clientSecret = true ∨ envFalsy env.mailboxAddress = true) :
    handler env tok api body
      = (⟨500, false, "Mail service not configured."⟩, ⟨0, []⟩) := by
  unfold handler handlerCore
  rw [hw, hn, he, hp, hm]
  rcases henv with h | h | h | h <;> simp [h, hn', he', hm', hlen]

/-- C5 witness: a fully valid submission against an environment whose
`CLIENT_SECRET` is unset. -/
theorem contact_C5_witness :
    handler ⟨some "tenant-guid", some "client-guid", none, some "info@schneiderdrafting.com"⟩
        (.ok (some "tok")) api202 (bodyWith "Hello")
      = (⟨500, false, "Mail service not configured."⟩, ⟨0, []⟩) :=
  contact_C5 _ (.ok (some "tok")) api202 _ "Jane Doe" "jane@example.com" "" "Hello"
    rfl rfl rfl rfl rfl rfl rfl rfl (by decide) (Or.inr (Or.inr (Or.inl rfl)))

set_option maxRecDepth 8000 in
/-- C6: every user-supplied string interpolated into the mail body goes
through `esc` (no raw `<`, `>` or `"` survives it, for any input), `esc`
replaces the ampersand first so escaping is unambiguous, and concretely a
message `<script>&"</script>` reaches the outbound body with all four
characters escaped and no raw `<script>` tag present. -/
theorem contact_C6 :
    (∀ s : String,
      (esc s).toList.filter
        (fun c => decide (c = '<') || decide (c = '>') || decide (c = '"')) = [])
    ∧ esc "<script>&\"</script>" = "&lt;script&gt;&amp;&quot;&lt;/script&gt;"
    ∧ (handler envAll (.ok (some "tok")) api202 (bodyWith "<script>&\"</script>")).1
        = ⟨200, true, "Thanks! Your message has been sent."⟩
    ∧ (handler envAll (.ok (some "tok")) api202 (bodyWith "<script>&\"</script>")).2.sendCalls.map
        (fun c => substrOf "&lt;script&gt;&amp;&quot;&lt;/script&gt;" c.mail.message.body.content)
        = [true]
    ∧ (handler envAll (.ok (some "tok")) api202 (bodyWith "<script>&\"</script>")).2.sendCalls.map
        (fun c => substrOf "<script>" c.mail.message.body.content) = [false] := by
  refine ⟨?_, by decide, by decide, by decide, by decide⟩
  intro s
  rw [List.filter_eq_nil_iff]
  intro a ha
  simp only [Bool.or_eq_true, decide_eq_true_eq]
  rintro ((h | h) | h)
  · exact lt_not_mem_esc s (h ▸ ha)
  · exact gt_not_mem_esc s (h ▸ ha)
  · exact quot_not_mem_esc s (h ▸ ha)

/-- C7: a valid submission that reaches the mail-build step produces a mail
request with exactly one recipient — the configured mailbox address — a
reply-to carrying the submitter's trimmed email and name, a subject
embedding both, and `saveToSentItems`; given a token and a 2xx mail-API
answer the handler returns 200 / `ok:true` after exactly one send call. -/
theorem contact_C7 (env : Env) (t : String) (api : SendCall → Nat × String)
    (body : Body) (n e p m : String)
    (hw : truthy body.website = false)
    (hn : jsTrimOr body.name = some n) (he : jsTrimOr body.email = some e)
    (hp : jsTrimOr body.phone = some p) (hm : jsTrimOr body.message = some m)
    (hn' : strFalsy n = false) (he' : strFalsy e = false) (hm' : strFalsy m = false)
    (hlen : ¬ 5000 < jsLength m)
    (henv : (envFalsy env.tenantId || envFalsy env.clientId
        || envFalsy env.clientSecret || envFalsy env.mailboxAddress) = false)
    (hapi : 200 ≤ (api (mkCall env t n e p m)).1 ∧ (api (mkCall env t n e p m)).1 < 300) :
    handler env (.ok (some t)) api body
      = (⟨200, true, "Thanks! Your message has been sent."⟩, ⟨1, [mkCall env t n e p m]⟩)
    ∧ (mkCall env t n e p m).mail.message.toRecipients
        = [⟨getOr env.mailboxAddress "", none⟩]
    ∧ (mkCall env t n e p m).mail.message.replyTo = [⟨e, some n⟩]
    ∧ (mkCall env t n e p m).mail.message.subject = "SDS Contact: " ++ n ++ " <" ++ e ++ ">"
    ∧ (mkCall env t n e p m).mail.saveToSentItems = true := by
  have hmb : envFalsy env.mailboxAddress = false := by
    cases hb : envFalsy env.mailboxAddress
    · rfl
    · rw [hb, Bool.or_true] at henv
      exact absurd henv (by simp)
  refine ⟨?_, ?_, rfl, rfl, rfl⟩
  · rw [handler_send env t api body n e p m hw hn he hp hm hn' he' hm' hlen henv,
      if_pos hapi]
  · unfold mkCall buildMail
    rw [jsOr_of_not_falsy hmb]

/-- C7 witness: the fully valid Jane Doe submission against a mocked 202
mail API is answered 200 after one send call. -/
theorem contact_C7_witness :
    handler envAll (.ok (some "tok")) api202 (bodyWith "Hello")
      = (⟨200, true, "Thanks! Your message has been sent."⟩,
         ⟨1, [mkCall envAll "tok" "Jane Doe" "jane@example.com" "" "Hello"]⟩) :=
  (contact_C7 envAll "tok" api202 (bodyWith "Hello") "Jane Doe" "jane@example.com" "" "Hello"
    rfl rfl rfl rfl rfl rfl rfl rfl (by decide) rfl (And.intro (by decide) (by decide))).1

/-- C8: every failing (non-200) response carries one of four fixed generic
messages — so the message never depends on the client secret, the bearer
token or the provider's error body; whenever the mail API answers non-2xx
the response is the constant catch-all 500 message, which contains the
fallback contact address and not the provider's error body. -/
theorem contact_C8 :
    (∀ (env : Env) (tok : Except String (Option String))
        (api : SendCall → Nat × String) (body : Body),
      (handler env tok api body).1.ok = false →
        ((handler env tok api body).1.message = "Please include name, email, and message."
        ∨ (handler env tok api body).1.message = "Message is too long."
        ∨ (handler env tok api body).1.message = "Mail service not configured."
        ∨ (handler env tok api body).1.message = failCatchMsg))
    ∧ (∀ (env : Env) (t : String) (api : SendCall → Nat × String) (body : Body)
        (n e p m : String),
        truthy body.website = false →
        jsTrimOr body.name = some n → jsTrimOr body.email = some e →
        jsTrimOr body.phone = some p → jsTrimOr body.message = some m →
        strFalsy n = false → strFalsy e = false → strFalsy m = false →
        ¬ 5000 < jsLength m →
        (envFalsy env.tenantId || envFalsy env.clientId
          || envFalsy env.clientSecret || envFalsy env.mailboxAddress) = false →
        ¬ (200 ≤ (api (mkCall env t n e p m)).1 ∧ (api (mkCall env t n e p m)).1 < 300) →
        (handler env (.ok (some t)) api body).1 = ⟨500, false, failCatchMsg⟩)
    ∧ substrOf "jon@schneiderdrafting.com" failCatchMsg = true
    ∧ substrOf "Forbidden: CallerDoesNotHaveRequiredPermissions" failCatchMsg = false := by
  refine ⟨?_, ?_, by decide, by decide⟩
  · intro env tok api body hok
    rcases handler_resp_cases env tok api body with h | h | h | h | h | h <;>
      rw [h] at hok ⊢ <;> simp_all
  · intro env t api body n e p m hw hn he hp hm hn' he' hm' hlen henv hnapi
    rw [handler_send env t api body n e p m hw hn he hp hm hn' he' hm' hlen henv,
      if_neg hnapi]

/-- C8 witness: a valid submission against a mail API answering 403 yields
the constant catch-all 500 response. -/
theorem contact_C8_witness :
    (handler envAll (.ok (some "tok")) api403 (bodyWith "Hello")).1
      = ⟨500, false, failCatchMsg⟩ :=
  contact_C8.2.1 envAll "tok" api403 (bodyWith "Hello") "Jane Doe" "jane@example.com" "" "Hello"
    rfl rfl rfl rfl rfl rfl rfl rfl (by decide) rfl (by decide)

/-- C9: a request whose body is neither routed to the url-encoded decoder
(no matching content type) nor decodable as JSON parses to the empty
mapping rather than throwing, and the handler then rejects it 400 through
the required-field validation, with no token acquisition or mail call. -/
theorem contact_C9 (urlDecode : String → Body) (jsonParse : String → Option Body)
    (req : Req)
    (hct : substrOf "application/x-www-form-urlencoded"
      (jsToLower (getOr req.contentType "")) = false)
    (hobj : req.body.isObj = false)
    (hjson : jsonParse (jsOr req.rawBody "\x7b\x7d") = none) :
    parseBody urlDecode jsonParse req = Body.empty
    ∧ ∀ (env : Env) (tok : Except String (Option String)) (api : SendCall → Nat × String),
        handler env tok api (parseBody urlDecode jsonParse req)
          = (⟨400, false, "Please include name, email, and message."⟩, ⟨0, []⟩) := by
  have hp : parseBody urlDecode jsonParse req = Body.empty := by
    unfold parseBody
    rw [hct]
    simp only [Bool.false_eq_true, if_false]
    cases hb : req.body with
    | obj b =>
      rw [hb] at hobj
      simp [ReqBody.isObj] at hobj
    | str s => simp [hjson]
    | null => simp [hjson]
    | undefined => simp [hjson]
  exact ⟨hp, fun env tok api => by rw [hp]; rfl⟩

/-- C9 witness: a `text/plain` request whose raw body is not JSON. -/
theorem contact_C9_witness :
    parseBody (fun _ => Body.empty) (fun _ => none)
        ⟨some "text/plain", ReqBody.str "hello", some "not json"⟩ = Body.empty
    ∧ ∀ (env : Env) (tok : Except String (Option String)) (api : SendCall → Nat × String),
        handler env tok api (parseBody (fun _ => Body.empty) (fun _ => none)
            ⟨some "text/plain", ReqBody.str "hello", some "not json"⟩)
          = (⟨400, false, "Please include name, email, and message."⟩, ⟨0, []⟩) :=
  contact_C9 (fun _ => Body.empty) (fun _ => none)
    ⟨some "text/plain", ReqBody.str "hello", some "not json"⟩ (by decide) rfl rfl

/-- C10 (implicit): the honeypot check tests JavaScript truthiness of the
untrimmed `website` value, not field presence: an empty-string, `0` or
`false` website is processed as a normal submission and sent as mail, while
a single-space website silently triggers the 200 "Thanks!" path with no
send. -/
theorem contact_C10 :
    handler envAll (.ok (some "tok")) api202 (bodyHoney (some (.str "")))
        = (⟨200, true, "Thanks! Your message has been sent."⟩,
           ⟨1, [mkCall envAll "tok" "Jane Doe" "jane@example.com" "" "Hello"]⟩)
    ∧ (handler envAll (.ok (some "tok")) api202 (bodyHoney (some (.num 0)))).1
        = ⟨200, true, "Thanks! Your message has been sent."⟩
    ∧ (handler envAll (.ok (some "tok")) api202 (bodyHoney (some (.num 0)))).2.sendCalls.length = 1
    ∧ (handler envAll (.ok (some "tok")) api202 (bodyHoney (some (.bool false)))).2.sendCalls.length = 1
    ∧ handler envAll (.ok (some "tok")) api202 (bodyHoney (some (.str " ")))
        = (⟨200, true, "Thanks!"⟩, ⟨0, []⟩) :=
  ⟨rfl, rfl, rfl, rfl, rfl⟩
